import Mathlib

/-!
Verification of the Region Stress Scoring & Dispatch Engine (src/main.py).

The Python source is shallowly embedded: Python floats become exact
rationals (ℚ), Python ints become ℤ, Python's `round(x, n)` (round half
to even) becomes `roundTo`, `math.ceil` becomes `Int.ceil`, the stable
`list.sort(key=..., reverse=True)` becomes the stable descending
insertion sort `sortDesc`, and the FastAPI endpoints `analyze`,
`dashboard` and `routes` become pure functions over the in-memory state
`latest_analysis : List RegionResult` (the error path of `analyze`
returns `Except.error` carrying the HTTP status code and detail).
-/

/-- Python `round half to even` of a rational to an integer,
as used by `round(x, n)` on exact decimal values. -/
def roundHalfEven (x : ℚ) : ℤ :=
  if x - ⌊x⌋ < 1/2 then ⌊x⌋
  else if 1/2 < x - ⌊x⌋ then ⌊x⌋ + 1
  else if ⌊x⌋ % 2 = 0 then ⌊x⌋ else ⌊x⌋ + 1

/-- Python `round(x, n)`: round to `n` decimal digits, half to even. -/
def roundTo (x : ℚ) (n : ℕ) : ℚ :=
  (roundHalfEven (x * 10 ^ n) : ℚ) / 10 ^ n

/-- Python `max(0.0, min(1.0, x))`, the clamp used in `compute_wsi`. -/
def clamp01 (x : ℚ) : ℚ := max 0 (min 1 x)

/-- Input record for one region (`RegionInput` in src/main.py). -/
structure RegionInput where
  region_id : String
  region_name : String
  population : ℤ
  normal_rainfall : ℚ
  actual_rainfall : ℚ
  groundwater_level : ℚ
  max_population : ℤ
deriving DecidableEq, Repr

/-- The dict returned by `compute_wsi` in src/main.py. -/
structure WsiData where
  wsi : ℚ
  rainfall_deviation : ℚ
  groundwater_decline : ℚ
  population_factor : ℚ
deriving DecidableEq, Repr

/-- Embedding of `compute_wsi` from src/main.py: the three clamped stress components
and the composite WSI, each rounded to 4 decimal digits. -/
def compute_wsi (normal_rainfall actual_rainfall groundwater_level : ℚ)
    (population max_population : ℤ) : WsiData :=
  let rainfall_deviation := clamp01 ((normal_rainfall - actual_rainfall) / normal_rainfall)
  let groundwater_decline := clamp01 ((100 - groundwater_level) / 100)
  let population_factor := clamp01 ((population : ℚ) / (max_population : ℚ))
  let wsi := 0.4 * rainfall_deviation + 0.3 * groundwater_decline + 0.3 * population_factor
  { wsi := roundTo wsi 4
    rainfall_deviation := roundTo rainfall_deviation 4
    groundwater_decline := roundTo groundwater_decline 4
    population_factor := roundTo population_factor 4 }

/-- Embedding of `get_stress_level` from src/main.py. -/
def get_stress_level (wsi : ℚ) : String :=
  if wsi < 0.3 then "safe"
  else if wsi ≤ 0.6 then "moderate"
  else "critical"

/-- The `daily_need = population * 135` line of `compute_tankers`. -/
def daily_need (population : ℤ) : ℚ := (population : ℚ) * 135

/-- The `available_water = population * groundwater_level * 0.5` line of `compute_tankers`. -/
def available_water (population : ℤ) (groundwater_level : ℚ) : ℚ :=
  (population : ℚ) * groundwater_level * 0.5

/-- The `deficit = max(0.0, daily_need - available_water)` line of `compute_tankers`. -/
def deficit (population : ℤ) (groundwater_level : ℚ) : ℚ :=
  max 0 (daily_need population - available_water population groundwater_level)

/-- The dict returned by `compute_tankers` in src/main.py. -/
structure TankerData where
  daily_need_litres : ℚ
  available_water_litres : ℚ
  deficit_litres : ℚ
  tankers_needed : ℤ
deriving DecidableEq, Repr

/-- Embedding of `compute_tankers` from src/main.py: litres fields rounded to 2
decimal digits, tankers = `math.ceil` of the unrounded deficit / 10000. -/
def compute_tankers (population : ℤ) (groundwater_level : ℚ) : TankerData :=
  { daily_need_litres := roundTo (daily_need population) 2
    available_water_litres := roundTo (available_water population groundwater_level) 2
    deficit_litres := roundTo (deficit population groundwater_level) 2
    tankers_needed := ⌈deficit population groundwater_level / 10000⌉ }

/-- Embedding of `compute_priority_score` from src/main.py. -/
def compute_priority_score (wsi population_factor : ℚ) : ℚ :=
  roundTo (0.7 * wsi + 0.3 * population_factor) 4

/-- The enriched per-region dict returned by `analyze_region`. -/
structure RegionResult where
  region_id : String
  region_name : String
  population : ℤ
  wsi : ℚ
  stress_level : String
  rainfall_deviation : ℚ
  groundwater_decline : ℚ
  population_factor : ℚ
  tanker_allocation : TankerData
  priority_score : ℚ
deriving DecidableEq, Repr

/-- Embedding of `analyze_region` from src/main.py. -/
def analyze_region (region : RegionInput) : RegionResult :=
  let wsi_data := compute_wsi region.normal_rainfall region.actual_rainfall
    region.groundwater_level region.population region.max_population
  let stress_level := get_stress_level wsi_data.wsi
  let tanker_data := compute_tankers region.population region.groundwater_level
  let priority := compute_priority_score wsi_data.wsi wsi_data.population_factor
  { region_id := region.region_id
    region_name := region.region_name
    population := region.population
    wsi := wsi_data.wsi
    stress_level := stress_level
    rainfall_deviation := wsi_data.rainfall_deviation
    groundwater_decline := wsi_data.groundwater_decline
    population_factor := wsi_data.population_factor
    tanker_allocation := tanker_data
    priority_score := priority }

/-- Insert one result into a list already sorted by priority score
descending, after all elements of priority ≥ its own (the placement a
stable sort gives an element relative to earlier-input elements). -/
def insertDesc (x : RegionResult) : List RegionResult → List RegionResult
  | [] => [x]
  | y :: ys =>
      if y.priority_score ≤ x.priority_score then x :: y :: ys
      else y :: insertDesc x ys

/-- Stable sort by priority score descending: the embedding of
`results.sort(key=lambda x: x["priority_score"], reverse=True)`
(Python's sort is stable and `reverse=True` keeps equal keys in input
order). -/
def sortDesc : List RegionResult → List RegionResult
  | [] => []
  | x :: xs => insertDesc x (sortDesc xs)

/-- The sorted result list built by a successful `/analyze` call. -/
def analyze_results (regions : List RegionInput) : List RegionResult :=
  sortDesc (regions.map analyze_region)

/-- The sum of `tankers_needed` over a result list. -/
def total_tankers (l : List RegionResult) : ℤ :=
  (l.map (fun r => r.tanker_allocation.tankers_needed)).sum

/-- Number of regions of `l` whose stress level equals `s`
(the `len([r for r in l if r["stress_level"] == s])` counts). -/
def count_level (l : List RegionResult) (s : String) : ℕ :=
  (l.filter (fun r => r.stress_level = s)).length

/-- The `summary` block of a successful `/analyze` response. -/
structure AnalyzeSummary where
  total_regions : ℕ
  critical_count : ℕ
  moderate_count : ℕ
  safe_count : ℕ
  total_tankers_needed : ℤ
deriving DecidableEq, Repr

/-- A successful `/analyze` response body. -/
structure AnalyzeResponse where
  summary : AnalyzeSummary
  regions : List RegionResult
deriving DecidableEq, Repr

/-- The response `analyze` builds for a non-empty batch. -/
def analyzeResponse (regions : List RegionInput) : AnalyzeResponse :=
  let results := analyze_results regions
  { summary :=
      { total_regions := results.length
        critical_count := count_level results "critical"
        moderate_count := count_level results "moderate"
        safe_count := count_level results "safe"
        total_tankers_needed := total_tankers results }
    regions := results }

/-- Embedding of `POST /analyze` from src/main.py: takes the current
`latest_analysis` state and the submitted batch; returns the response
(or the `HTTPException(400, "No regions provided.")` as an error) and
the new state. -/
def analyze (state : List RegionResult) (regions : List RegionInput) :
    Except (ℕ × String) AnalyzeResponse × List RegionResult :=
  if regions.isEmpty then (Except.error (400, "No regions provided."), state)
  else (Except.ok (analyzeResponse regions), analyze_results regions)

/-- The `kpis` block of the `/dashboard` response. -/
structure DashboardKpis where
  total_regions_analysed : ℕ
  average_wsi : ℚ
  total_tankers_needed : ℤ
  total_water_deficit_litres : ℚ
deriving DecidableEq, Repr

/-- The data part of a `/dashboard` response when analysis data exists. -/
structure DashboardData where
  kpis : DashboardKpis
  critical_regions : ℕ
  moderate_regions : ℕ
  safe_regions : ℕ
  top_critical_regions : List RegionResult
  all_regions : List RegionResult
deriving DecidableEq, Repr

/-- Embedding of `GET /dashboard` from src/main.py; `none` models the
"No analysis data yet" branch taken on an empty `latest_analysis`. -/
def dashboard (state : List RegionResult) : Option DashboardData :=
  if state.isEmpty then none
  else some
    { kpis :=
        { total_regions_analysed := state.length
          average_wsi := roundTo ((state.map (fun r => r.wsi)).sum / (state.length : ℚ)) 4
          total_tankers_needed := total_tankers state
          total_water_deficit_litres :=
            roundTo ((state.map (fun r => r.tanker_allocation.deficit_litres)).sum) 2 }
      critical_regions := count_level state "critical"
      moderate_regions := count_level state "moderate"
      safe_regions := count_level state "safe"
      top_critical_regions := state.take 5
      all_regions := state }

/-- One entry of the `/routes` dispatch list. -/
structure DispatchEntry where
  dispatch_order : ℕ
  region_id : String
  region_name : String
  stress_level : String
  priority_score : ℚ
  tankers_to_dispatch : ℤ
  deficit_litres : ℚ
  population : ℤ
deriving DecidableEq, Repr

/-- The dispatch list built by `GET /routes`: note the source filters
`enumerate(latest_analysis)` AFTER enumerating, so `dispatch_order` is
1 + the region's index in the FULL sorted batch, not in the filtered
list. -/
def dispatch_list (state : List RegionResult) : List DispatchEntry :=
  ((state.enum).filter (fun p => 0 < p.2.tanker_allocation.tankers_needed)).map
    (fun p =>
      { dispatch_order := p.1 + 1
        region_id := p.2.region_id
        region_name := p.2.region_name
        stress_level := p.2.stress_level
        priority_score := p.2.priority_score
        tankers_to_dispatch := p.2.tanker_allocation.tankers_needed
        deficit_litres := p.2.tanker_allocation.deficit_litres
        population := p.2.population })

/-- The data part of a `/routes` response when analysis data exists. -/
structure RoutesData where
  total_tankers_dispatching : ℤ
  routes : List DispatchEntry
deriving DecidableEq, Repr

/-- Embedding of `GET /routes` from src/main.py; `none` models the
"No analysis data yet" branch taken on an empty `latest_analysis`. -/
def routes (state : List RegionResult) : Option RoutesData :=
  if state.isEmpty then none
  else some
    { total_tankers_dispatching := ((dispatch_list state).map
        (fun d => d.tankers_to_dispatch)).sum
      routes := dispatch_list state }

/-- The worked example region of the spec: normal_rainfall=800,
actual_rainfall=320, groundwater_level=35, population=45000,
max_population=100000. -/
def exampleRegion : RegionInput :=
  { region_id := "R001"
    region_name := "Nagpur East"
    population := 45000
    normal_rainfall := 800
    actual_rainfall := 320
    groundwater_level := 35
    max_population := 100000 }

/-- C4: the classifier is total on ℚ with the claimed thresholds: below
0.3 it returns safe, between 0.3 and 0.6 inclusive it returns moderate,
above 0.6 it returns critical, and its value is always exactly one of
the three labels. -/
theorem get_stress_level_partition (w : ℚ) :
    (w < 0.3 → get_stress_level w = "safe") ∧
    (0.3 ≤ w → w ≤ 0.6 → get_stress_level w = "moderate") ∧
    (0.6 < w → get_stress_level w = "critical") ∧
    (get_stress_level w = "safe" ∨ get_stress_level w = "moderate" ∨
      get_stress_level w = "critical") := by
  unfold get_stress_level
  refine ⟨fun h => by simp [h], fun h1 h2 => ?_, fun h => ?_, ?_⟩
  · rw [if_neg (by linarith), if_pos h2]
  · rw [if_neg (by linarith), if_neg (by linarith)]
  · split
    · exact Or.inl rfl
    · split
      · exact Or.inr (Or.inl rfl)
      · exact Or.inr (Or.inr rfl)

/-- Witness for C4: at the boundary inputs 0.3 and 0.6 the classifier
returns moderate. -/
theorem get_stress_level_partition_witness :
    get_stress_level 0.3 = "moderate" ∧ get_stress_level 0.6 = "moderate" :=
  ⟨(get_stress_level_partition 0.3).2.1 le_rfl (by norm_num),
   (get_stress_level_partition 0.6).2.1 (by norm_num) le_rfl⟩

/-- C2 counterexample: on the spec's worked example the code computes
WSI = 0.57 (not 0.615), stress level "moderate" (not "critical") and
priority score 0.534 (not 0.5655), so the claimed output values are
false. -/
theorem example_region_claim_false :
    ¬ ((analyze_region exampleRegion).wsi = 0.615 ∧
       (analyze_region exampleRegion).stress_level = "critical" ∧
       (analyze_region exampleRegion).priority_score = 0.5655) := by
  norm_num [analyze_region, compute_wsi, get_stress_level, compute_tankers,
    compute_priority_score, clamp01, roundTo, roundHalfEven, daily_need,
    available_water, deficit, exampleRegion]

/-- C2 amended: on the worked example the code computes
rainfall_deviation = 0.6, groundwater_decline = 0.65,
population_factor = 0.45, WSI = 0.57, stress level "moderate",
daily_need = 6075000, available_water = 787500, deficit = 5287500,
tankers_needed = 529 and priority score 0.534. -/
theorem example_region_values :
    (analyze_region exampleRegion).rainfall_deviation = 0.6 ∧
    (analyze_region exampleRegion).groundwater_decline = 0.65 ∧
    (analyze_region exampleRegion).population_factor = 0.45 ∧
    (analyze_region exampleRegion).wsi = 0.57 ∧
    (analyze_region exampleRegion).stress_level = "moderate" ∧
    (analyze_region exampleRegion).tanker_allocation.daily_need_litres = 6075000 ∧
    (analyze_region exampleRegion).tanker_allocation.available_water_litres = 787500 ∧
    (analyze_region exampleRegion).tanker_allocation.deficit_litres = 5287500 ∧
    (analyze_region exampleRegion).tanker_allocation.tankers_needed = 529 ∧
    (analyze_region exampleRegion).priority_score = 0.534 := by
  norm_num [analyze_region, compute_wsi, get_stress_level, compute_tankers,
    compute_priority_score, clamp01, roundTo, roundHalfEven, daily_need,
    available_water, deficit, exampleRegion]
  rw [Int.ceil_eq_iff]; norm_num

lemma roundHalfEven_nonneg {x : ℚ} (hx : 0 ≤ x) : 0 ≤ roundHalfEven x := by
  have h0 : (0 : ℤ) ≤ ⌊x⌋ := Int.floor_nonneg.mpr hx
  unfold roundHalfEven
  split
  · exact h0
  · split
    · omega
    · split
      · exact h0
      · omega

lemma roundHalfEven_le {x : ℚ} {B : ℤ} (hx : x ≤ (B : ℚ)) : roundHalfEven x ≤ B := by
  have h0 : ⌊x⌋ ≤ B := by
    have := Int.floor_le_floor hx
    simpa using this
  unfold roundHalfEven
  split
  · exact h0
  · rename_i h1
    have hfrac : (1 : ℚ)/2 ≤ x - ⌊x⌋ := le_of_not_lt h1
    have hne : ⌊x⌋ ≠ B := by
      intro he
      rw [he] at hfrac
      linarith
    split
    · omega
    · split
      · exact h0
      · omega

lemma roundTo_nonneg {x : ℚ} (n : ℕ) (hx : 0 ≤ x) : 0 ≤ roundTo x n := by
  unfold roundTo
  have h1 : (0 : ℚ) ≤ (roundHalfEven (x * 10 ^ n) : ℚ) := by
    exact_mod_cast roundHalfEven_nonneg (by positivity)
  positivity

lemma roundTo_le_one {x : ℚ} (n : ℕ) (hx : x ≤ 1) : roundTo x n ≤ 1 := by
  unfold roundTo
  have hb : x * 10 ^ n ≤ ((10 ^ n : ℤ) : ℚ) := by
    push_cast
    have hp : (0 : ℚ) < 10 ^ n := by positivity
    nlinarith
  have h1 : (roundHalfEven (x * 10 ^ n) : ℚ) ≤ ((10 ^ n : ℤ) : ℚ) := by
    exact_mod_cast roundHalfEven_le hb
  rw [div_le_one (by positivity : (0:ℚ) < 10 ^ n)]
  push_cast at h1 ⊢
  exact h1

lemma clamp01_nonneg (x : ℚ) : 0 ≤ clamp01 x := le_max_left 0 _

lemma clamp01_le_one (x : ℚ) : clamp01 x ≤ 1 := by
  unfold clamp01
  rcases le_total 1 x with h | h
  · rw [min_eq_left h]
    norm_num
  · rw [min_eq_right h]
    exact max_le (by norm_num) h

/-- C7: for every valid input (positive normal rainfall, population and
max population) each of the three stress components returned by
`compute_wsi` and the composite WSI all lie in [0, 1]. -/
theorem compute_wsi_bounds (nr ar g : ℚ) (p mp : ℤ)
    (h1 : 0 < nr) (h2 : 0 < p) (h3 : 0 < mp) :
    0 ≤ (compute_wsi nr ar g p mp).rainfall_deviation ∧
      (compute_wsi nr ar g p mp).rainfall_deviation ≤ 1 ∧
    0 ≤ (compute_wsi nr ar g p mp).groundwater_decline ∧
      (compute_wsi nr ar g p mp).groundwater_decline ≤ 1 ∧
    0 ≤ (compute_wsi nr ar g p mp).population_factor ∧
      (compute_wsi nr ar g p mp).population_factor ≤ 1 ∧
    0 ≤ (compute_wsi nr ar g p mp).wsi ∧ (compute_wsi nr ar g p mp).wsi ≤ 1 := by
  unfold compute_wsi
  simp only
  have crd := And.intro (clamp01_nonneg ((nr - ar) / nr)) (clamp01_le_one ((nr - ar) / nr))
  have cgd := And.intro (clamp01_nonneg ((100 - g) / 100)) (clamp01_le_one ((100 - g) / 100))
  have cpf := And.intro (clamp01_nonneg ((p : ℚ) / (mp : ℚ))) (clamp01_le_one ((p : ℚ) / (mp : ℚ)))
  refine ⟨roundTo_nonneg 4 crd.1, roundTo_le_one 4 crd.2,
    roundTo_nonneg 4 cgd.1, roundTo_le_one 4 cgd.2,
    roundTo_nonneg 4 cpf.1, roundTo_le_one 4 cpf.2,
    roundTo_nonneg 4 (by nlinarith [crd.1, cgd.1, cpf.1]),
    roundTo_le_one 4 (by nlinarith [crd.2, cgd.2, cpf.2])⟩

/-- Witness for C7: the bounds hold at the spec's worked example input. -/
theorem compute_wsi_bounds_witness :
    (0 : ℚ) < 800 ∧ (0 : ℤ) < 45000 ∧ (0 : ℤ) < 100000 ∧
    (0 ≤ (compute_wsi 800 320 35 45000 100000).rainfall_deviation ∧
      (compute_wsi 800 320 35 45000 100000).rainfall_deviation ≤ 1 ∧
    0 ≤ (compute_wsi 800 320 35 45000 100000).groundwater_decline ∧
      (compute_wsi 800 320 35 45000 100000).groundwater_decline ≤ 1 ∧
    0 ≤ (compute_wsi 800 320 35 45000 100000).population_factor ∧
      (compute_wsi 800 320 35 45000 100000).population_factor ≤ 1 ∧
    0 ≤ (compute_wsi 800 320 35 45000 100000).wsi ∧
      (compute_wsi 800 320 35 45000 100000).wsi ≤ 1) :=
  ⟨by norm_num, by norm_num, by norm_num,
    compute_wsi_bounds 800 320 35 45000 100000 (by norm_num) (by norm_num) (by norm_num)⟩

lemma deficit_nonneg (p : ℤ) (g : ℚ) : 0 ≤ deficit p g := le_max_left 0 _

/-- C6: for every positive population and any groundwater level,
`compute_tankers` returns 0 tankers exactly when the deficit is ≤ 0;
when the deficit is positive it returns `⌈deficit / 10000⌉ ≥ 1`; and the
returned `deficit_litres` is never negative. -/
theorem compute_tankers_spec (p : ℤ) (g : ℚ) (hp : 0 < p) :
    ((compute_tankers p g).tankers_needed = 0 ↔ deficit p g ≤ 0) ∧
    (0 < deficit p g →
      (compute_tankers p g).tankers_needed = ⌈deficit p g / 10000⌉ ∧
      1 ≤ (compute_tankers p g).tankers_needed) ∧
    0 ≤ (compute_tankers p g).deficit_litres := by
  have hd : 0 ≤ deficit p g := deficit_nonneg p g
  refine ⟨?_, fun hpos => ⟨rfl, ?_⟩, roundTo_nonneg 2 hd⟩
  · constructor
    · intro h0
      by_contra hc
      push_neg at hc
      have : 0 < deficit p g / 10000 := by positivity
      have : 0 < ⌈deficit p g / 10000⌉ := Int.ceil_pos.mpr this
      simp only [compute_tankers] at h0
      omega
    · intro h0
      have he : deficit p g = 0 := le_antisymm h0 hd
      simp [compute_tankers, he]
  · have : 0 < deficit p g / 10000 := by positivity
    have := Int.ceil_pos.mpr this
    simp only [compute_tankers]
    omega

/-- Witness for C6: at population 1 and groundwater level 0 the deficit
is positive, one tanker is needed, and the deficit field is nonnegative. -/
theorem compute_tankers_spec_witness :
    (0 : ℤ) < 1 ∧
    (((compute_tankers 1 0).tankers_needed = 0 ↔ deficit 1 0 ≤ 0) ∧
    (0 < deficit 1 0 →
      (compute_tankers 1 0).tankers_needed = ⌈deficit 1 0 / 10000⌉ ∧
      1 ≤ (compute_tankers 1 0).tankers_needed) ∧
    0 ≤ (compute_tankers 1 0).deficit_litres) :=
  ⟨by norm_num, compute_tankers_spec 1 0 (by norm_num)⟩

/-- C3: `compute_tankers` uses the raw groundwater level unclamped:
available water is population × level × 0.5 and the deficit is
max(0, 135·p − 0.5·g·p); for any level above 100 the deficit is
strictly below the deficit at the clamped level 100, it vanishes from
level 270 on, while the Severity Calculator clamps the same level (its
groundwater_decline term is 0 there). -/
theorem compute_tankers_unclamped (p : ℤ) (g : ℚ) (hp : 0 < p) (hg : 100 < g) :
    available_water p g = (p : ℚ) * g * 0.5 ∧
    deficit p g = max 0 (135 * (p : ℚ) - 0.5 * g * (p : ℚ)) ∧
    (compute_tankers p g).tankers_needed = ⌈deficit p g / 10000⌉ ∧
    deficit p g < deficit p 100 ∧
    (270 ≤ g → deficit p g = 0) ∧
    clamp01 ((100 - g) / 100) = 0 := by
  have hp' : (0 : ℚ) < (p : ℚ) := by exact_mod_cast hp
  refine ⟨rfl, ?_, rfl, ?_, fun h270 => ?_, ?_⟩
  · unfold deficit daily_need available_water
    ring_nf
  · have h100 : deficit p 100 = 85 * (p : ℚ) := by
      unfold deficit daily_need available_water
      rw [max_eq_right (by nlinarith)]
      ring
    rw [h100]
    unfold deficit daily_need available_water
    rcases max_cases (0 : ℚ) ((p : ℚ) * 135 - (p : ℚ) * g * 0.5) with ⟨he, _⟩ | ⟨he, _⟩
    · rw [he]; nlinarith
    · rw [he]; nlinarith
  · unfold deficit daily_need available_water
    rw [max_eq_left (by nlinarith)]
  · unfold clamp01
    rw [min_eq_right (by nlinarith), max_eq_left (by nlinarith)]

/-- Witness for C3: at population 1, groundwater level 280 all the
conjuncts hold concretely. -/
theorem compute_tankers_unclamped_witness :
    (0 : ℤ) < 1 ∧ (100 : ℚ) < 280 ∧
    (available_water 1 280 = (1 : ℚ) * 280 * 0.5 ∧
    deficit 1 280 = max 0 (135 * (1 : ℚ) - 0.5 * 280 * (1 : ℚ)) ∧
    (compute_tankers 1 280).tankers_needed = ⌈deficit 1 280 / 10000⌉ ∧
    deficit 1 280 < deficit 1 100 ∧
    ((270 : ℚ) ≤ 280 → deficit 1 280 = 0) ∧
    clamp01 ((100 - 280) / 100) = 0) :=
  ⟨by norm_num, by norm_num, compute_tankers_unclamped 1 280 (by norm_num) (by norm_num)⟩

/-- C8: submitting an empty batch is rejected with the 400 client error
"No regions provided." and the stored state after the rejection equals
the state before the submission. -/
theorem analyze_empty_rejected (state : List RegionResult) :
    (analyze state []).1 = Except.error (400, "No regions provided.") ∧
    (analyze state []).2 = state := by
  simp [analyze]

lemma insertDesc_perm (x : RegionResult) (l : List RegionResult) :
    List.Perm (insertDesc x l) (x :: l) := by
  induction l with
  | nil => rfl
  | cons y ys ih =>
      unfold insertDesc
      split
      · rfl
      · exact ((ih.cons y).trans (List.Perm.swap x y ys))

lemma sortDesc_perm (l : List RegionResult) : List.Perm (sortDesc l) l := by
  induction l with
  | nil => rfl
  | cons x xs ih =>
      exact (insertDesc_perm x (sortDesc xs)).trans (ih.cons x)

lemma insertDesc_sorted (x : RegionResult) (l : List RegionResult)
    (hl : l.Sorted (fun a b => b.priority_score ≤ a.priority_score)) :
    (insertDesc x l).Sorted (fun a b => b.priority_score ≤ a.priority_score) := by
  induction l with
  | nil => simp [insertDesc]
  | cons y ys ih =>
      rw [List.sorted_cons] at hl
      unfold insertDesc
      split
      · rename_i hyx
        rw [List.sorted_cons]
        refine ⟨fun b hb => ?_, List.sorted_cons.mpr hl⟩
        rcases List.mem_cons.mp hb with hb | hb
        · rw [hb]
          exact hyx
        · exact le_trans (hl.1 b hb) hyx
      · rename_i hyx
        push_neg at hyx
        rw [List.sorted_cons]
        refine ⟨fun b hb => ?_, ih hl.2⟩
        rcases List.mem_cons.mp ((insertDesc_perm x ys).mem_iff.mp hb) with hb | hb
        · rw [hb]
          exact hyx.le
        · exact hl.1 b hb

lemma sortDesc_sorted (l : List RegionResult) :
    (sortDesc l).Sorted (fun a b => b.priority_score ≤ a.priority_score) := by
  induction l with
  | nil => simp [sortDesc]
  | cons x xs ih => exact insertDesc_sorted x (sortDesc xs) ih

lemma insertDesc_filter_key (x : RegionResult) (l : List RegionResult) (q : ℚ) :
    (insertDesc x l).filter (fun r => r.priority_score = q) =
      (x :: l).filter (fun r => r.priority_score = q) := by
  induction l with
  | nil => rfl
  | cons y ys ih =>
      unfold insertDesc
      split
      · rfl
      · rename_i hyx
        push_neg at hyx
        by_cases hx : x.priority_score = q
        · by_cases hy : y.priority_score = q
          · exact absurd (hx.trans hy.symm) (ne_of_lt hyx)
          · simp [List.filter_cons, hx, hy, ih]
        · by_cases hy : y.priority_score = q
          · simp [List.filter_cons, hx, hy, ih]
          · simp [List.filter_cons, hx, hy, ih]

lemma sortDesc_filter_key (l : List RegionResult) (q : ℚ) :
    (sortDesc l).filter (fun r => r.priority_score = q) =
      l.filter (fun r => r.priority_score = q) := by
  induction l with
  | nil => rfl
  | cons x xs ih =>
      unfold sortDesc
      rw [insertDesc_filter_key, List.filter_cons, List.filter_cons, ih]

/-- C5: for every non-empty accepted batch, the returned response body
and the stored state both equal `analyze_results`, which is sorted by
priority score in non-increasing order and, for each priority value,
lists the regions of that priority in the same relative order as they
appeared in the submitted input (stable tie-breaking). -/
theorem analyze_sorted_stable (state : List RegionResult)
    (regions : List RegionInput) (h : regions ≠ []) :
    (analyze state regions).1 = Except.ok (analyzeResponse regions) ∧
    (analyze state regions).2 = analyze_results regions ∧
    (analyzeResponse regions).regions = analyze_results regions ∧
    (analyze_results regions).Sorted (fun a b => b.priority_score ≤ a.priority_score) ∧
    ∀ q : ℚ, (analyze_results regions).filter (fun r => r.priority_score = q) =
      (regions.map analyze_region).filter (fun r => r.priority_score = q) := by
  have hne : regions.isEmpty = false := by
    cases regions with
    | nil => exact absurd rfl h
    | cons a as => rfl
  refine ⟨by simp [analyze, hne], by simp [analyze, hne], rfl,
    sortDesc_sorted _, fun q => sortDesc_filter_key _ q⟩

/-- Witness for C5: the sortedness and stability conclusions hold on the
concrete one-region batch made of the worked example. -/
theorem analyze_sorted_stable_witness :
    [exampleRegion] ≠ [] ∧
    ((analyze [] [exampleRegion]).1 = Except.ok (analyzeResponse [exampleRegion]) ∧
    (analyze [] [exampleRegion]).2 = analyze_results [exampleRegion] ∧
    (analyzeResponse [exampleRegion]).regions = analyze_results [exampleRegion] ∧
    (analyze_results [exampleRegion]).Sorted
      (fun a b => b.priority_score ≤ a.priority_score) ∧
    ∀ q : ℚ, (analyze_results [exampleRegion]).filter (fun r => r.priority_score = q) =
      ([exampleRegion].map analyze_region).filter (fun r => r.priority_score = q)) :=
  ⟨List.cons_ne_nil _ _, analyze_sorted_stable [] [exampleRegion] (List.cons_ne_nil _ _)⟩

lemma get_stress_level_cases (w : ℚ) :
    get_stress_level w = "critical" ∨ get_stress_level w = "moderate" ∨
      get_stress_level w = "safe" := by
  unfold get_stress_level
  split
  · exact Or.inr (Or.inr rfl)
  · split
    · exact Or.inr (Or.inl rfl)
    · exact Or.inl rfl

lemma analyze_results_stress (regions : List RegionInput) :
    ∀ r ∈ analyze_results regions,
      r.stress_level = "critical" ∨ r.stress_level = "moderate" ∨
        r.stress_level = "safe" := by
  intro r hr
  have hm : r ∈ regions.map analyze_region := (sortDesc_perm _).mem_iff.mp hr
  rcases List.mem_map.mp hm with ⟨inp, _, he⟩
  rw [← he]
  exact get_stress_level_cases _

lemma count_level_partition (l : List RegionResult)
    (h : ∀ r ∈ l, r.stress_level = "critical" ∨ r.stress_level = "moderate" ∨
      r.stress_level = "safe") :
    count_level l "critical" + count_level l "moderate" + count_level l "safe" =
      l.length := by
  induction l with
  | nil => rfl
  | cons x xs ih =>
      have hx := h x (List.mem_cons_self x xs)
      have ihx := ih (fun r hr => h r (List.mem_cons_of_mem x hr))
      unfold count_level at ihx ⊢
      have d1 : ("critical" : String) ≠ "moderate" := by decide
      have d2 : ("critical" : String) ≠ "safe" := by decide
      have d3 : ("moderate" : String) ≠ "critical" := by decide
      have d4 : ("moderate" : String) ≠ "safe" := by decide
      have d5 : ("safe" : String) ≠ "critical" := by decide
      have d6 : ("safe" : String) ≠ "moderate" := by decide
      rcases hx with hx | hx | hx
      · simp only [List.filter_cons, hx, List.length_cons]
        simp [d1, d2]
        omega
      · simp only [List.filter_cons, hx, List.length_cons]
        simp [d3, d4]
        omega
      · simp only [List.filter_cons, hx, List.length_cons]
        simp [d5, d6]
        omega

lemma analyze_results_length (regions : List RegionInput) :
    (analyze_results regions).length = regions.length := by
  show (sortDesc (regions.map analyze_region)).length = regions.length
  rw [(sortDesc_perm _).length_eq, List.length_map]

/-- C9: for every accepted (non-empty) batch, each result's stress
level is exactly one of critical, moderate or safe, the three category
counts of the summary add up to `total_regions`, `total_regions` is the
number of submitted regions, and this is the response `/analyze`
returns. -/
theorem analyze_counts_partition (state : List RegionResult)
    (regions : List RegionInput) (h : regions ≠ []) :
    (∀ r ∈ (analyzeResponse regions).regions,
      r.stress_level = "critical" ∨ r.stress_level = "moderate" ∨
        r.stress_level = "safe") ∧
    (analyzeResponse regions).summary.critical_count +
      (analyzeResponse regions).summary.moderate_count +
      (analyzeResponse regions).summary.safe_count =
      (analyzeResponse regions).summary.total_regions ∧
    (analyzeResponse regions).summary.total_regions = regions.length ∧
    (analyze state regions).1 = Except.ok (analyzeResponse regions) := by
  have hne : regions.isEmpty = false := by
    cases regions with
    | nil => exact absurd rfl h
    | cons a as => rfl
  refine ⟨analyze_results_stress regions, ?_, analyze_results_length regions,
    by simp [analyze, hne]⟩
  exact count_level_partition _ (analyze_results_stress regions)

/-- Witness for C9: the partition holds on the concrete one-region batch
made of the worked example. -/
theorem analyze_counts_partition_witness :
    [exampleRegion] ≠ [] ∧
    ((∀ r ∈ (analyzeResponse [exampleRegion]).regions,
      r.stress_level = "critical" ∨ r.stress_level = "moderate" ∨
        r.stress_level = "safe") ∧
    (analyzeResponse [exampleRegion]).summary.critical_count +
      (analyzeResponse [exampleRegion]).summary.moderate_count +
      (analyzeResponse [exampleRegion]).summary.safe_count =
      (analyzeResponse [exampleRegion]).summary.total_regions ∧
    (analyzeResponse [exampleRegion]).summary.total_regions = [exampleRegion].length ∧
    (analyze [] [exampleRegion]).1 = Except.ok (analyzeResponse [exampleRegion])) :=
  ⟨List.cons_ne_nil _ _, analyze_counts_partition [] [exampleRegion] (List.cons_ne_nil _ _)⟩

lemma analyze_results_tankers_nonneg (regions : List RegionInput) :
    ∀ r ∈ analyze_results regions, 0 ≤ r.tanker_allocation.tankers_needed := by
  intro r hr
  have hm : r ∈ regions.map analyze_region := (sortDesc_perm _).mem_iff.mp hr
  rcases List.mem_map.mp hm with ⟨inp, _, he⟩
  rw [← he]
  show (0 : ℤ) ≤ ⌈deficit inp.population inp.groundwater_level / 10000⌉
  exact Int.ceil_nonneg (div_nonneg (deficit_nonneg _ _) (by norm_num))

lemma sum_filter_tankers (el : List (ℕ × RegionResult))
    (h : ∀ p ∈ el, 0 ≤ p.2.tanker_allocation.tankers_needed) :
    ((el.filter (fun p => 0 < p.2.tanker_allocation.tankers_needed)).map
        (fun p => p.2.tanker_allocation.tankers_needed)).sum =
      (el.map (fun p => p.2.tanker_allocation.tankers_needed)).sum := by
  induction el with
  | nil => rfl
  | cons p ps ih =>
      have hp := h p (List.mem_cons_self p ps)
      have ihp := ih (fun q hq => h q (List.mem_cons_of_mem p hq))
      by_cases hlt : 0 < p.2.tanker_allocation.tankers_needed
      · simp [List.filter_cons, hlt, ihp]
      · have hz : p.2.tanker_allocation.tankers_needed = 0 := le_antisymm (not_lt.mp hlt) hp
        simp [List.filter_cons, hlt, ihp, hz]

lemma dispatch_total_eq (state : List RegionResult)
    (h : ∀ r ∈ state, 0 ≤ r.tanker_allocation.tankers_needed) :
    ((dispatch_list state).map (fun d => d.tankers_to_dispatch)).sum =
      total_tankers state := by
  unfold dispatch_list total_tankers
  rw [List.map_map]
  have henum : ∀ p ∈ state.enum, 0 ≤ p.2.tanker_allocation.tankers_needed := by
    intro p hp
    apply h
    have : p.2 ∈ state.enum.map Prod.snd := List.mem_map_of_mem Prod.snd hp
    rwa [List.enum_map_snd] at this
  have hs := sum_filter_tankers state.enum henum
  have hcomp : ((state.enum.filter
      (fun p => 0 < p.2.tanker_allocation.tankers_needed)).map
      (fun p => p.2.tanker_allocation.tankers_needed)).sum =
      (state.enum.map (fun p => p.2.tanker_allocation.tankers_needed)).sum := hs
  have : (state.enum.map (fun p => p.2.tanker_allocation.tankers_needed)) =
      state.map (fun r => r.tanker_allocation.tankers_needed) := by
    have := congrArg (List.map (fun r => r.tanker_allocation.tankers_needed))
      (List.enum_map_snd state)
    rwa [List.map_map] at this
  rw [← this, ← hcomp]
  rfl

/-- C10: for every batch accepted by `/analyze`, the
`total_tankers_dispatching` of `GET /routes` (sum over the filtered
dispatch list) equals the `total_tankers_needed` of `/analyze` and of
`/dashboard` (sum over all stored regions); every stored region has a
nonnegative tanker count, so the regions the dispatch list excludes all
have `tankers_needed = 0`. -/
theorem routes_total_consistent (state : List RegionResult)
    (regions : List RegionInput) (h : regions ≠ []) :
    Option.map (fun d => d.total_tankers_dispatching)
        (routes ((analyze state regions).2)) =
      some (total_tankers ((analyze state regions).2)) ∧
    Option.map (fun d => d.kpis.total_tankers_needed)
        (dashboard ((analyze state regions).2)) =
      some (total_tankers ((analyze state regions).2)) ∧
    (analyzeResponse regions).summary.total_tankers_needed =
      total_tankers ((analyze state regions).2) ∧
    ∀ r ∈ (analyze state regions).2,
      r.tanker_allocation.tankers_needed ≤ 0 →
        r.tanker_allocation.tankers_needed = 0 := by
  have hner : regions.isEmpty = false := by
    cases regions with
    | nil => exact absurd rfl h
    | cons a as => rfl
  have hst : (analyze state regions).2 = analyze_results regions := by
    simp [analyze, hner]
  have hlen : (analyze_results regions).length = regions.length :=
    analyze_results_length regions
  have hne : (analyze_results regions).isEmpty = false := by
    rw [List.isEmpty_eq_false_iff_exists_mem]
    cases hres : analyze_results regions with
    | nil =>
        rw [hres] at hlen
        cases regions with
        | nil => exact absurd rfl h
        | cons a as => simp at hlen
    | cons b bs => exact ⟨b, List.mem_cons_self b bs⟩
  have hnn := analyze_results_tankers_nonneg regions
  rw [hst]
  refine ⟨?_, ?_, rfl, fun r hr hle => le_antisymm hle (hnn r hr)⟩
  · rw [routes, if_neg (by rw [hne]; exact Bool.false_ne_true)]
    exact congrArg some (dispatch_total_eq _ hnn)
  · rw [dashboard, if_neg (by rw [hne]; exact Bool.false_ne_true)]
    rfl

/-- Witness for C10: the totals agree on the concrete one-region batch
made of the worked example. -/
theorem routes_total_consistent_witness :
    [exampleRegion] ≠ [] ∧
    (Option.map (fun d => d.total_tankers_dispatching)
        (routes ((analyze [] [exampleRegion]).2)) =
      some (total_tankers ((analyze [] [exampleRegion]).2)) ∧
    Option.map (fun d => d.kpis.total_tankers_needed)
        (dashboard ((analyze [] [exampleRegion]).2)) =
      some (total_tankers ((analyze [] [exampleRegion]).2)) ∧
    (analyzeResponse [exampleRegion]).summary.total_tankers_needed =
      total_tankers ((analyze [] [exampleRegion]).2) ∧
    ∀ r ∈ (analyze [] [exampleRegion]).2,
      r.tanker_allocation.tankers_needed ≤ 0 →
        r.tanker_allocation.tankers_needed = 0) :=
  ⟨List.cons_ne_nil _ _, routes_total_consistent [] [exampleRegion] (List.cons_ne_nil _ _)⟩

/-- A region needing no tankers (groundwater 270 makes the deficit 0)
with the highest priority of its batch. -/
def regionA : RegionInput :=
  { region_id := "A"
    region_name := "Alpha"
    population := 1000
    normal_rainfall := 100
    actual_rainfall := 0
    groundwater_level := 270
    max_population := 1000 }

/-- A region needing tankers, with the lowest priority of its batch. -/
def regionB : RegionInput :=
  { region_id := "B"
    region_name := "Beta"
    population := 100
    normal_rainfall := 100
    actual_rainfall := 100
    groundwater_level := 0
    max_population := 1000 }

/-- C1: evaluation of the code at a batch of two regions where only the
lower-priority one needs tankers. The full sorted batch is
[regionA, regionB]; the dispatch list of `GET /routes` has length 1 but
its single entry carries `dispatch_order = 2`, because the source
enumerates `latest_analysis` before filtering, so `dispatch_order` is
the index in the full batch rather than 1..k over the filtered list. -/
theorem routes_dispatch_order_not_contiguous :
    (analyze_region regionA).tanker_allocation.tankers_needed = 0 ∧
    0 < (analyze_region regionB).tanker_allocation.tankers_needed ∧
    (analyze [] [regionA, regionB]).2 =
      [analyze_region regionA, analyze_region regionB] ∧
    Option.map (fun d => d.routes.map (fun e => e.dispatch_order))
        (routes ((analyze [] [regionA, regionB]).2)) = some [2] := by
  have hA : (analyze_region regionA).priority_score = 0.79 := by
    norm_num [analyze_region, compute_wsi, compute_priority_score, clamp01,
      roundTo, roundHalfEven, regionA]
  have hB : (analyze_region regionB).priority_score = 0.261 := by
    norm_num [analyze_region, compute_wsi, compute_priority_score, clamp01,
      roundTo, roundHalfEven, regionB]
  have hAt : (analyze_region regionA).tanker_allocation.tankers_needed = 0 := by
    show ⌈deficit regionA.population regionA.groundwater_level / 10000⌉ = 0
    norm_num [deficit, daily_need, available_water, regionA]
  have hBt : (analyze_region regionB).tanker_allocation.tankers_needed = 2 := by
    show ⌈deficit regionB.population regionB.groundwater_level / 10000⌉ = 2
    norm_num [deficit, daily_need, available_water, regionB]
    rw [Int.ceil_eq_iff]; norm_num
  have hstep : analyze_results [regionA, regionB] =
      insertDesc (analyze_region regionA) [analyze_region regionB] := rfl
  have hins : insertDesc (analyze_region regionA) [analyze_region regionB] =
      [analyze_region regionA, analyze_region regionB] := by
    unfold insertDesc
    rw [if_pos (by rw [hA, hB]; norm_num)]
  have hsort : (analyze [] [regionA, regionB]).2 =
      [analyze_region regionA, analyze_region regionB] := by
    show analyze_results [regionA, regionB] = _
    rw [hstep, hins]
  refine ⟨hAt, by rw [hBt]; norm_num, hsort, ?_⟩
  rw [hsort, routes, if_neg (by simp)]
  show some ((dispatch_list
      [analyze_region regionA, analyze_region regionB]).map
      (fun e => e.dispatch_order)) = some [2]
  refine congrArg some ?_
  simp [dispatch_list, List.enum, List.enumFrom, List.filter_cons, hAt, hBt]
